import Mathlib

/-!
Verification of the Snapshot Retention Processor
(`lambda_handler.py` of Managing_Snapshots_lambda).

The module is embedded shallowly: every collaborator call (EC2 describe /
delete, SNS publish, CloudWatch metric) is recorded as an `Action` in an
event trace, collaborator responses are supplied by an `Env` of response
functions, and machine time is an integer count of seconds.  Each Python
function becomes a Lean function from its inputs (plus the configuration
and the environment of collaborator responses) to its result together with
the trace of collaborator calls it performs, in order.
-/

namespace SnapshotCleanup

/-- A resource tag, as in the `Tags` list of a snapshot description. -/
structure Tag where
  key : String
  value : String
deriving DecidableEq, Repr

/-- A snapshot as returned by `describe_snapshots`: its id, its
`StartTime` (seconds since the epoch), and its tag list (empty when the
`Tags` key is absent). -/
structure Snapshot where
  snapshotId : String
  startTime : Int
  tags : List Tag
deriving DecidableEq, Repr

/-- The configuration read from environment variables at module load:
`SNS_TOPIC_ARN`, `SNAPSHOT_RETENTION_DAYS`, `WARNING_DAYS` (default 5),
`DRY_RUN` (default false), `BATCH_SIZE` (default 100). -/
structure Config where
  snsTopicArn : String
  retentionDays : Int
  warningDays : Int
  dryRun : Bool
  batchSize : Nat
deriving DecidableEq, Repr

/-- The distinct SNS message templates built by `process_snapshot`.  Each
constructor stands for one of the f-strings of the source; two messages
built from different templates are never the same string, so the
constructors faithfully separate them. -/
inductive Msg where
  /-- `"Snapshot {id} will be deleted in {n} days."` -/
  | warnInDays (snapshotId : String) (n : Int)
  /-- `"Snapshot {id} will be deleted today."` -/
  | warnToday (snapshotId : String)
  /-- `"[DRY RUN] Would have deleted snapshot {id} which exceeded retention period."` when the dry-run flag is on, else `"Deleted snapshot {id} which exceeded retention period."` -/
  | deletedMsg (dryRun : Bool) (snapshotId : String)
  /-- `"Snapshot {id} is in use by AMI(s) and will not be deleted."` -/
  | inUseMsg (snapshotId : String)
deriving DecidableEq, Repr

/-- One collaborator API call, as recorded in the event trace. -/
inductive Action where
  /-- `ec2.describe_snapshots` (the paginated listing in `get_all_snapshots`). -/
  | describeSnapshots
  /-- `ec2.describe_images` filtered on the snapshot id. -/
  | describeImages (snapshotId : String)
  /-- `ec2.delete_snapshot`. -/
  | deleteSnapshot (snapshotId : String)
  /-- `sns.publish` on the configured topic. -/
  | snsPublish (msg : Msg)
  /-- `cloudwatch.put_metric_data` with value 1 for the named metric. -/
  | putMetric (name : String)
deriving DecidableEq, Repr

/-- The per-snapshot `ProcessingOutcome` of the spec, derived from which
branch of `process_snapshot` ran.  `NoAction` covers the case that the
enumeration in the spec leaves unnamed: a non-exempt snapshot past the warning window
(`days_over > warning_days`), for which the code does nothing at all. -/
inductive Outcome where
  | Exempt
  | TooYoung
  | Warned
  | Deleted
  | DryRunDeleted
  | RetainedInUse
  | Errored
  | NoAction
deriving DecidableEq, Repr

/-- Collaborator responses: what `describe_images` and `delete_snapshot`
would answer for a given snapshot id.  `Except.error ()` stands for a
`ClientError` raised by the call. -/
structure Env where
  images : String → Except Unit (List String)
  deleteSnap : String → Except Unit Unit

/-- The exemption test of `process_snapshot` line 49: the `Tags` list is
non-empty and some tag has key `ExemptFromDeletion`. -/
def isExempt (snap : Snapshot) : Bool :=
  !snap.tags.isEmpty && snap.tags.any (fun t => t.key == "ExemptFromDeletion")

/-- The age computation `(current_date - snapshot[StartTime]).days` of
line 53: the `days` attribute of a timedelta is the floor of the
difference in days, hence floor division of the difference in seconds by
86400. -/
def snapshotAgeDays (currentDate : Int) (snap : Snapshot) : Int :=
  Int.fdiv (currentDate - snap.startTime) 86400

/-- `process_snapshot(snapshot, current_date)`: the derived outcome and the
ordered trace of collaborator calls it performs.  Mirrors the source line
by line: exemption check; age guard `snapshot_age > SNAPSHOT_RETENTION_DAYS`;
warning publish when `days_until_deletion <= WARNING_DAYS`; deletion
eligibility when `days_until_deletion <= 0`, with the image lookup, the
dry-run guard, the delete call, and the `ClientError` handler that
increments `SnapshotProcessingErrors`. -/
def processSnapshot (cfg : Config) (env : Env) (currentDate : Int)
    (snap : Snapshot) : Outcome × List Action :=
  if isExempt snap then
    (Outcome.Exempt, [])
  else
    let snapshotAge := snapshotAgeDays currentDate snap
    if snapshotAge > cfg.retentionDays then
      let daysUntilDeletion := snapshotAge - cfg.retentionDays
      let warnActions : List Action :=
        if daysUntilDeletion ≤ cfg.warningDays then
          [Action.snsPublish
            (if daysUntilDeletion > 0 then
              Msg.warnInDays snap.snapshotId daysUntilDeletion
            else
              Msg.warnToday snap.snapshotId)]
        else []
      if daysUntilDeletion ≤ 0 then
        match env.images snap.snapshotId with
        | Except.error _ =>
            (Outcome.Errored,
             warnActions ++ [Action.describeImages snap.snapshotId,
                             Action.putMetric "SnapshotProcessingErrors"])
        | Except.ok amis =>
            if amis.isEmpty then
              if cfg.dryRun then
                (Outcome.DryRunDeleted,
                 warnActions ++ [Action.describeImages snap.snapshotId,
                                 Action.snsPublish (Msg.deletedMsg true snap.snapshotId),
                                 Action.putMetric "SnapshotsDeleted"])
              else
                match env.deleteSnap snap.snapshotId with
                | Except.ok _ =>
                    (Outcome.Deleted,
                     warnActions ++ [Action.describeImages snap.snapshotId,
                                     Action.deleteSnapshot snap.snapshotId,
                                     Action.snsPublish (Msg.deletedMsg false snap.snapshotId),
                                     Action.putMetric "SnapshotsDeleted"])
                | Except.error _ =>
                    (Outcome.Errored,
                     warnActions ++ [Action.describeImages snap.snapshotId,
                                     Action.deleteSnapshot snap.snapshotId,
                                     Action.putMetric "SnapshotProcessingErrors"])
            else
              (Outcome.RetainedInUse,
               warnActions ++ [Action.describeImages snap.snapshotId,
                               Action.snsPublish (Msg.inUseMsg snap.snapshotId)])
      else
        (if daysUntilDeletion ≤ cfg.warningDays then Outcome.Warned else Outcome.NoAction,
         warnActions)
    else
      (Outcome.TooYoung, [])

/-- The trace of `process_snapshot` alone. -/
def processTrace (cfg : Config) (env : Env) (currentDate : Int)
    (snap : Snapshot) : List Action :=
  (processSnapshot cfg env currentDate snap).2

/-- Whether an action is a `delete_snapshot` call. -/
def Action.isDeleteCall : Action → Bool
  | Action.deleteSnapshot _ => true
  | _ => false

/-- Whether an action is a `describe_images` call. -/
def Action.isImageLookup : Action → Bool
  | Action.describeImages _ => true
  | _ => false

/-- Whether an action publishes the `"will be deleted today"` message. -/
def Action.isTodayMsg : Action → Bool
  | Action.snsPublish (Msg.warnToday _) => true
  | _ => false

/-- Whether an action publishes the `"is in use ... will not be deleted"` message. -/
def Action.isInUseMsg : Action → Bool
  | Action.snsPublish (Msg.inUseMsg _) => true
  | _ => false

/-- Whether an action publishes any SNS message. -/
def Action.isPublish : Action → Bool
  | Action.snsPublish _ => true
  | _ => false

/-- Whether an action increments the named CloudWatch metric. -/
def Action.isMetric (name : String) : Action → Bool
  | Action.putMetric n => n == name
  | _ => false

/-- Chunking helper: `chunkAux B fuel l` splits `l` into slices of `B`
elements, the last possibly shorter, exactly as the loop
`for i in range(0, len(snapshots), BATCH_SIZE): batch = snapshots[i:i+BATCH_SIZE]`
does for `B ≥ 1`.  The `fuel` argument only bounds the recursion; each
step consumes at least one element, so `fuel = l.length` suffices.
(For `B = 0` Python raises `ValueError` when building the range;
`lambdaHandler` models that raise and never consults this function at a
zero batch size, so `chunkAux` is only meaningful for `B ≥ 1`.) -/
def chunkAux {α : Type} (B : Nat) : Nat → List α → List (List α)
  | 0, _ => []
  | _ + 1, [] => []
  | fuel + 1, a :: l => (a :: l.take (B - 1)) :: chunkAux B fuel (l.drop (B - 1))

/-- The list of batches `snapshots[0:B], snapshots[B:2B], ...` of the
batching loop in `process_snapshots_in_batches`. -/
def chunkList {α : Type} (B : Nat) (l : List α) : List (List α) :=
  chunkAux B l.length l

/-- `process_snapshots_in_batches(snapshots, current_date)`: for each batch
in order, process each snapshot of the batch in order; the trace is the
concatenation of the per-snapshot traces.  (The per-batch progress log is
not a collaborator call and leaves no trace.) -/
def processSnapshotsInBatches (cfg : Config) (env : Env) (currentDate : Int)
    (snapshots : List Snapshot) : List Action :=
  (chunkList cfg.batchSize snapshots).flatMap
    (fun batch => batch.flatMap (processTrace cfg env currentDate))

/-- `validate_env_vars()`: `ValueError` when the topic is missing or the
retention is falsy (zero), or when `SNAPSHOT_RETENTION_DAYS <= 0` or
`WARNING_DAYS < 0`. -/
def validateEnvVars (cfg : Config) : Except String Unit :=
  if cfg.snsTopicArn = "" ∨ cfg.retentionDays = 0 then
    Except.error "Missing required environment variables"
  else if cfg.retentionDays ≤ 0 ∨ cfg.warningDays < 0 then
    Except.error "Invalid retention or warning days"
  else
    Except.ok ()

/-- How the snapshot listing (`get_all_snapshots`) terminates: with the
full list, with a `ClientError` from the API, or with any other
exception. -/
inductive ListingResult where
  | ok (snapshots : List Snapshot)
  | clientError
  | unexpectedError
deriving DecidableEq, Repr

/-- The structured dictionary with keys `statusCode` and `body` returned
by `lambda_handler`. -/
structure LambdaResult where
  statusCode : Nat
  body : String
deriving DecidableEq, Repr

/-- `lambda_handler(event, context)`: validate, list, process in batches,
count, and convert every failure into a structured result — `ValueError`
to 400, `ClientError` to 500 plus `AWSAPIErrors`, anything else to 500
plus `UnexpectedErrors`.  The `listing` argument is how the collaborator
answers the snapshot listing.  `validate_env_vars` does not check
`BATCH_SIZE`, so a zero batch size passes validation and then
`range(0, len(snapshots), 0)` inside `process_snapshots_in_batches`
raises `ValueError` before any snapshot is processed; the
`except ValueError` arm catches it and returns 400 — after the listing
call, with no per-snapshot action. -/
def lambdaHandler (cfg : Config) (env : Env) (listing : ListingResult)
    (currentDate : Int) : LambdaResult × List Action :=
  match validateEnvVars cfg with
  | Except.error msg =>
      ({ statusCode := 400, body := "Validation error: " ++ msg }, [])
  | Except.ok _ =>
    match listing with
    | ListingResult.clientError =>
        ({ statusCode := 500, body := "An error occurred during AWS API call" },
         [Action.describeSnapshots, Action.putMetric "AWSAPIErrors"])
    | ListingResult.unexpectedError =>
        ({ statusCode := 500, body := "An unexpected error occurred" },
         [Action.describeSnapshots, Action.putMetric "UnexpectedErrors"])
    | ListingResult.ok snapshots =>
        if cfg.batchSize = 0 then
          ({ statusCode := 400, body := "Validation error: range() arg 3 must not be zero" },
           [Action.describeSnapshots])
        else
          ({ statusCode := 200, body := "Snapshot cleanup completed successfully!" },
           Action.describeSnapshots ::
             (processSnapshotsInBatches cfg env currentDate snapshots ++
              [Action.putMetric "SnapshotsProcessed"]))

/-- Whether `validate_env_vars` succeeds on a configuration. -/
def validationOk (cfg : Config) : Bool :=
  match validateEnvVars cfg with
  | Except.ok _ => true
  | Except.error _ => false

/-- The lengths of the batches that `chunkAux B fuel` produces from a list
of the given length: the arithmetic shadow of the batching loop, used to
compute batch counts for a list of known length. -/
def lengthChunksAux (B : Nat) : Nat → Nat → List Nat
  | 0, _ => []
  | _ + 1, 0 => []
  | fuel + 1, n + 1 => (1 + min (B - 1) n) :: lengthChunksAux B fuel (n - (B - 1))

/-! ### Concrete fixtures used by witnesses and counterexamples -/

/-- A typical valid configuration: 30-day retention, 5-day warning window,
dry-run off, batch size 100. -/
def cfgStd : Config :=
  { snsTopicArn := "arn:aws:sns:topic", retentionDays := 30, warningDays := 5,
    dryRun := false, batchSize := 100 }

/-- `cfgStd` with the dry-run flag on. -/
def cfgDry : Config := { cfgStd with dryRun := true }

/-- An environment in which no image references any snapshot and deletion
succeeds. -/
def envNoImages : Env :=
  { images := fun _ => Except.ok [], deleteSnap := fun _ => Except.ok () }

/-- An environment in which every snapshot is referenced by one image. -/
def envWithImage : Env :=
  { images := fun _ => Except.ok ["ami-001"], deleteSnap := fun _ => Except.ok () }

/-- An environment in which the image lookup raises a `ClientError`. -/
def envImagesFail : Env :=
  { images := fun _ => Except.error (), deleteSnap := fun _ => Except.ok () }

/-- An untagged snapshot created at the epoch. -/
def snapPlain : Snapshot :=
  { snapshotId := "snap-001", startTime := 0, tags := [] }

/-- A snapshot carrying the `ExemptFromDeletion` tag. -/
def snapExempt : Snapshot :=
  { snapshotId := "snap-002", startTime := 0,
    tags := [{ key := "ExemptFromDeletion", value := "true" }] }

/-- The instant `n` whole days after the epoch. -/
def daysAfterEpoch (n : Int) : Int := n * 86400

/-- `cfgStd` with `SNAPSHOT_RETENTION_DAYS` set to 0. -/
def cfgZeroRetention : Config := { cfgStd with retentionDays := 0 }

/-- `cfgStd` with `BATCH_SIZE` set to 0 — passes validation, then makes
the batching range raise. -/
def cfgZeroBatch : Config := { cfgStd with batchSize := 0 }

/-- A list of 250 distinct untagged snapshots. -/
def snaps250 : List Snapshot :=
  (List.range 250).map fun i => { snapshotId := toString i, startTime := 0, tags := [] }

end SnapshotCleanup

namespace SnapshotCleanup

/-! ### Characterization of `process_snapshot` -/

/-- A snapshot with the exemption tag: return at line 51, no actions. -/
theorem processSnapshot_exempt (cfg : Config) (env : Env) (currentDate : Int)
    (snap : Snapshot) (hex : isExempt snap = true) :
    processSnapshot cfg env currentDate snap = (Outcome.Exempt, []) := by
  simp [processSnapshot, hex]

/-- A non-exempt snapshot with `snapshot_age <= SNAPSHOT_RETENTION_DAYS`:
the guard at line 54 fails and nothing happens. -/
theorem processSnapshot_tooYoung (cfg : Config) (env : Env) (currentDate : Int)
    (snap : Snapshot) (hex : isExempt snap = false)
    (hage : snapshotAgeDays currentDate snap ≤ cfg.retentionDays) :
    processSnapshot cfg env currentDate snap = (Outcome.TooYoung, []) := by
  simp [processSnapshot, hex]
  omega

/-- A non-exempt snapshot strictly over retention.  Because the guard at
line 54 forces `days_until_deletion = snapshot_age - SNAPSHOT_RETENTION_DAYS ≥ 1`,
the deletion-eligibility test `days_until_deletion <= 0` at line 63 is
false and the `days_until_deletion > 0` test at line 57 is true: the only
possible effect is a single warning publish, when the age is within the
warning window. -/
theorem processSnapshot_over (cfg : Config) (env : Env) (currentDate : Int)
    (snap : Snapshot) (hex : isExempt snap = false)
    (hage : cfg.retentionDays < snapshotAgeDays currentDate snap) :
    processSnapshot cfg env currentDate snap =
      (if snapshotAgeDays currentDate snap - cfg.retentionDays ≤ cfg.warningDays then
        (Outcome.Warned,
         [Action.snsPublish (Msg.warnInDays snap.snapshotId
            (snapshotAgeDays currentDate snap - cfg.retentionDays))])
      else (Outcome.NoAction, [])) := by
  have h1 : ¬ (snapshotAgeDays currentDate snap - cfg.retentionDays ≤ 0) := by omega
  have h0 : snapshotAgeDays currentDate snap - cfg.retentionDays > 0 := by omega
  simp only [processSnapshot, hex, Bool.false_eq_true, if_false, if_pos hage, if_neg h1,
    if_pos h0]
  split <;> rfl

/-- Every run of `process_snapshot` lands in one of exactly four shapes:
exempt, too young, one warning publish, or nothing at all.  In particular
no branch ever reaches the image lookup, the delete call, or the
per-snapshot error handler. -/
theorem processSnapshot_cases (cfg : Config) (env : Env) (currentDate : Int)
    (snap : Snapshot) :
    processSnapshot cfg env currentDate snap = (Outcome.Exempt, [])
    ∨ processSnapshot cfg env currentDate snap = (Outcome.TooYoung, [])
    ∨ (∃ d, 0 < d ∧ processSnapshot cfg env currentDate snap =
        (Outcome.Warned, [Action.snsPublish (Msg.warnInDays snap.snapshotId d)]))
    ∨ processSnapshot cfg env currentDate snap = (Outcome.NoAction, []) := by
  by_cases hex : isExempt snap = true
  · exact Or.inl (processSnapshot_exempt cfg env currentDate snap hex)
  · have hex' : isExempt snap = false := by simpa using hex
    by_cases hage : cfg.retentionDays < snapshotAgeDays currentDate snap
    · rw [processSnapshot_over cfg env currentDate snap hex' hage]
      by_cases hw : snapshotAgeDays currentDate snap - cfg.retentionDays ≤ cfg.warningDays
      · exact Or.inr (Or.inr (Or.inl ⟨snapshotAgeDays currentDate snap - cfg.retentionDays,
          by omega, by rw [if_pos hw]⟩))
      · exact Or.inr (Or.inr (Or.inr (by rw [if_neg hw])))
    · exact Or.inr (Or.inl (processSnapshot_tooYoung cfg env currentDate snap hex' (by omega)))

/-! ### Characterization of the batching loop -/

/-- Concatenating the batches gives back the snapshot list: every snapshot
is covered exactly once, in order. -/
theorem chunkAux_flatten (B : Nat) :
    ∀ (fuel : Nat) (l : List Snapshot), l.length ≤ fuel →
      (chunkAux B fuel l).flatten = l
  | 0, [], _ => rfl
  | 0, _ :: _, h => absurd h (by simp)
  | _ + 1, [], _ => rfl
  | fuel + 1, a :: l, h => by
      have hlen : (l.drop (B - 1)).length ≤ fuel := by
        rw [List.length_drop]
        simp at h
        omega
      simp only [chunkAux, List.flatten, chunkAux_flatten B fuel _ hlen]
      rw [List.cons_append, List.take_append_drop]

/-- Processing batch by batch produces the same action sequence as
processing the whole list in one pass. -/
theorem chunkAux_flatMap (B : Nat) (f : Snapshot → List Action) :
    ∀ (fuel : Nat) (l : List Snapshot), l.length ≤ fuel →
      (chunkAux B fuel l).flatMap (fun batch => batch.flatMap f) = l.flatMap f
  | 0, [], _ => rfl
  | 0, _ :: _, h => absurd h (by simp)
  | _ + 1, [], _ => rfl
  | fuel + 1, a :: l, h => by
      have hlen : (l.drop (B - 1)).length ≤ fuel := by
        rw [List.length_drop]
        simp at h
        omega
      simp only [chunkAux, List.flatMap_cons, chunkAux_flatMap B f fuel _ hlen]
      rw [List.append_assoc, ← List.flatMap_append, List.take_append_drop]

/-- The batch lengths depend only on the length of the list. -/
theorem chunkAux_lengths (B : Nat) :
    ∀ (fuel : Nat) (l : List Snapshot),
      (chunkAux B fuel l).map List.length = lengthChunksAux B fuel l.length
  | 0, _ => rfl
  | _ + 1, [] => rfl
  | fuel + 1, a :: l => by
      simp only [chunkAux, List.map_cons, List.length_cons, lengthChunksAux,
        chunkAux_lengths B fuel (l.drop (B - 1)), List.length_drop, List.length_take]
      congr 1
      omega

end SnapshotCleanup

namespace SnapshotCleanup

/-! ### Claims C1 to C5 -/

/-- C1, counterexample.  An untagged 30-day-old snapshot under a 30-day
retention (`days_over = 0`), unreferenced by any image, with dry-run off
and also with dry-run on: the claim predicts a deletion with a
`SnapshotsDeleted` increment (dry-run off) or a dry-run notification
(dry-run on), but the code classifies the snapshot TooYoung and performs
no collaborator call at all, because the guard at line 54 is strict. -/
theorem retention_boundary_not_deleted_cex :
    processSnapshot cfgStd envNoImages (daysAfterEpoch 30) snapPlain
      = (Outcome.TooYoung, [])
    ∧ processSnapshot cfgDry envNoImages (daysAfterEpoch 30) snapPlain
      = (Outcome.TooYoung, []) := by
  decide

/-- C1, amended.  A non-exempt snapshot with `days_over` exactly 0 (age
equal to the retention period) is never evaluated for deletion: it is
classified TooYoung and no delete call, metric increment, or notification
occurs, in dry-run mode or not. -/
theorem retention_boundary_tooYoung (cfg : Config) (env : Env) (currentDate : Int)
    (snap : Snapshot) (hex : isExempt snap = false)
    (hb : snapshotAgeDays currentDate snap - cfg.retentionDays = 0) :
    processSnapshot cfg env currentDate snap = (Outcome.TooYoung, []) :=
  processSnapshot_tooYoung cfg env currentDate snap hex (by omega)

/-- C1, witness for the amended claim at a concrete boundary input. -/
theorem retention_boundary_tooYoung_witness :
    isExempt snapPlain = false
    ∧ snapshotAgeDays (daysAfterEpoch 30) snapPlain - cfgStd.retentionDays = 0
    ∧ processSnapshot cfgStd envNoImages (daysAfterEpoch 30) snapPlain
        = (Outcome.TooYoung, []) :=
  ⟨by decide, by decide,
   retention_boundary_tooYoung cfgStd envNoImages (daysAfterEpoch 30) snapPlain
     (by decide) (by decide)⟩

/-- C2.  For every configuration, environment, date, and snapshot,
`process_snapshot` never calls `delete_snapshot`, never increments the
`SnapshotsDeleted` metric, and never publishes the
`"will be deleted today"` message: the over-retention branch forces
`days_until_deletion ≥ 1`, so the `days_until_deletion <= 0` branch and
the `== 0` message are unreachable. -/
theorem delete_branch_unreachable (cfg : Config) (env : Env) (currentDate : Int)
    (snap : Snapshot) :
    ((processSnapshot cfg env currentDate snap).2.all fun a => !a.isDeleteCall) = true
    ∧ ((processSnapshot cfg env currentDate snap).2.all
        fun a => !a.isMetric "SnapshotsDeleted") = true
    ∧ ((processSnapshot cfg env currentDate snap).2.all fun a => !a.isTodayMsg) = true := by
  rcases processSnapshot_cases cfg env currentDate snap with h | h | ⟨d, _, h⟩ | h <;>
    rw [h] <;>
    simp [Action.isDeleteCall, Action.isMetric, Action.isTodayMsg]

/-- C3.  A non-exempt snapshot strictly over retention but within the
warning window (`1 ≤ days_over ≤ warning_days`): the whole trace is one
warning publish, so exactly one warning notification is sent and no
deletion (or any other) call occurs.  At `days_over = 1` (witness) the
snapshot is warned but not evaluated for deletion. -/
theorem warning_window_single_warning (cfg : Config) (env : Env) (currentDate : Int)
    (snap : Snapshot) (hex : isExempt snap = false)
    (hlo : cfg.retentionDays < snapshotAgeDays currentDate snap)
    (hhi : snapshotAgeDays currentDate snap ≤ cfg.retentionDays + cfg.warningDays) :
    processSnapshot cfg env currentDate snap =
      (Outcome.Warned,
       [Action.snsPublish (Msg.warnInDays snap.snapshotId
          (snapshotAgeDays currentDate snap - cfg.retentionDays))]) := by
  rw [processSnapshot_over cfg env currentDate snap hex hlo, if_pos (by omega)]

/-- C3, witness: a 31-day-old snapshot under 30-day retention
(`days_over = 1`) gets exactly the single warning publish. -/
theorem warning_window_single_warning_witness :
    processSnapshot cfgStd envNoImages (daysAfterEpoch 31) snapPlain =
      (Outcome.Warned, [Action.snsPublish (Msg.warnInDays "snap-001" 1)]) :=
  warning_window_single_warning cfgStd envNoImages (daysAfterEpoch 31) snapPlain
    (by decide) (by decide) (by decide)

/-- C4.  A snapshot carrying at least one tag with key
`ExemptFromDeletion` is Exempt regardless of age: processing returns at
line 51 with no notification, no image lookup, no delete call, and no
metric increment. -/
theorem exempt_tag_stops_processing (cfg : Config) (env : Env) (currentDate : Int)
    (snap : Snapshot)
    (h : (snap.tags.any fun t => t.key == "ExemptFromDeletion") = true) :
    processSnapshot cfg env currentDate snap = (Outcome.Exempt, []) := by
  have hex : isExempt snap = true := by
    have hne : snap.tags.isEmpty = false := by
      cases ht : snap.tags with
      | nil => rw [ht] at h; simp at h
      | cons a l => simp [ht]
    simp [isExempt, hne, h]
  exact processSnapshot_exempt cfg env currentDate snap hex

/-- C4, witness: a 100-day-old exempt snapshot under 30-day retention. -/
theorem exempt_tag_stops_processing_witness :
    ((snapExempt.tags.any fun t => t.key == "ExemptFromDeletion") = true)
    ∧ processSnapshot cfgStd envNoImages (daysAfterEpoch 100) snapExempt
        = (Outcome.Exempt, []) :=
  ⟨by decide,
   exempt_tag_stops_processing cfgStd envNoImages (daysAfterEpoch 100) snapExempt (by decide)⟩

/-- C5.  A non-exempt snapshot whose age in whole days is at most the
retention period is TooYoung: the trace is empty, so no notification,
image lookup, or delete call occurs. -/
theorem too_young_no_action (cfg : Config) (env : Env) (currentDate : Int)
    (snap : Snapshot) (hex : isExempt snap = false)
    (hage : snapshotAgeDays currentDate snap ≤ cfg.retentionDays) :
    processSnapshot cfg env currentDate snap = (Outcome.TooYoung, []) :=
  processSnapshot_tooYoung cfg env currentDate snap hex hage

/-- C5, witness: a 10-day-old snapshot under 30-day retention. -/
theorem too_young_no_action_witness :
    isExempt snapPlain = false
    ∧ snapshotAgeDays (daysAfterEpoch 10) snapPlain ≤ cfgStd.retentionDays
    ∧ processSnapshot cfgStd envNoImages (daysAfterEpoch 10) snapPlain
        = (Outcome.TooYoung, []) :=
  ⟨by decide, by decide,
   too_young_no_action cfgStd envNoImages (daysAfterEpoch 10) snapPlain (by decide) (by decide)⟩

end SnapshotCleanup

namespace SnapshotCleanup

/-! ### Claims C6 to C10 -/

/-- C6, counterexample.  A 40-day-old untagged snapshot under 30-day
retention, in an environment where the image lookup would report one
referencing image: the claim predicts an in-use notification and outcome
RetainedInUse, but the code performs no call at all — the
deletion-eligibility branch that would consult the images is
unreachable. -/
theorem in_use_notification_never_sent_cex :
    envWithImage.images "snap-001" = Except.ok ["ami-001"]
    ∧ processSnapshot cfgStd envWithImage (daysAfterEpoch 40) snapPlain
        = (Outcome.NoAction, []) :=
  ⟨rfl, by decide⟩

/-- C6, amended.  A snapshot that the image-lookup collaborator would
report as referenced is indeed never deleted, regardless of age or
dry-run — but vacuously: the image lookup itself never happens, the
in-use notification is never sent, and the RetainedInUse outcome never
arises. -/
theorem referenced_snapshot_never_deleted (cfg : Config) (env : Env) (currentDate : Int)
    (snap : Snapshot) (amis : List String)
    (_himg : env.images snap.snapshotId = Except.ok amis) (_hne : amis ≠ []) :
    ((processSnapshot cfg env currentDate snap).2.all fun a => !a.isDeleteCall) = true
    ∧ ((processSnapshot cfg env currentDate snap).2.all fun a => !a.isImageLookup) = true
    ∧ ((processSnapshot cfg env currentDate snap).2.all fun a => !a.isInUseMsg) = true
    ∧ (processSnapshot cfg env currentDate snap).1 ≠ Outcome.RetainedInUse := by
  rcases processSnapshot_cases cfg env currentDate snap with h | h | ⟨d, _, h⟩ | h <;>
    rw [h] <;>
    simp [Action.isDeleteCall, Action.isImageLookup, Action.isInUseMsg]

/-- C6, witness for the amended claim at a concrete referenced snapshot. -/
theorem referenced_snapshot_never_deleted_witness :
    envWithImage.images "snap-001" = Except.ok ["ami-001"]
    ∧ (((processSnapshot cfgStd envWithImage (daysAfterEpoch 40) snapPlain).2.all
          fun a => !a.isDeleteCall) = true
       ∧ ((processSnapshot cfgStd envWithImage (daysAfterEpoch 40) snapPlain).2.all
          fun a => !a.isImageLookup) = true
       ∧ ((processSnapshot cfgStd envWithImage (daysAfterEpoch 40) snapPlain).2.all
          fun a => !a.isInUseMsg) = true
       ∧ (processSnapshot cfgStd envWithImage (daysAfterEpoch 40) snapPlain).1
          ≠ Outcome.RetainedInUse) :=
  ⟨rfl,
   referenced_snapshot_never_deleted cfgStd envWithImage (daysAfterEpoch 40) snapPlain
     ["ami-001"] rfl (by decide)⟩

/-- C7.  An invalid configuration — non-positive retention, negative
warning days, or a missing notification channel — makes `lambda_handler`
return status 400 with an empty trace: no snapshot listing, image lookup,
deletion, notification, or metric increment is performed, since
`validate_env_vars` raises before any collaborator call. -/
theorem invalid_config_returns_400 (cfg : Config) (env : Env) (listing : ListingResult)
    (currentDate : Int)
    (h : cfg.retentionDays ≤ 0 ∨ cfg.warningDays < 0 ∨ cfg.snsTopicArn = "") :
    (lambdaHandler cfg env listing currentDate).1.statusCode = 400
    ∧ (lambdaHandler cfg env listing currentDate).2 = [] := by
  obtain ⟨m, hm⟩ : ∃ m, validateEnvVars cfg = Except.error m := by
    unfold validateEnvVars
    by_cases h1 : cfg.snsTopicArn = "" ∨ cfg.retentionDays = 0
    · exact ⟨_, if_pos h1⟩
    · have h2 : cfg.retentionDays ≤ 0 ∨ cfg.warningDays < 0 := by
        rcases h with h | h | h
        · exact Or.inl h
        · exact Or.inr h
        · exact absurd (Or.inl h) h1
      rw [if_neg h1, if_pos h2]
      exact ⟨_, rfl⟩
  simp [lambdaHandler, hm]

/-- C7, witness: `SNAPSHOT_RETENTION_DAYS = 0`. -/
theorem invalid_config_returns_400_witness :
    cfgZeroRetention.retentionDays ≤ 0
    ∧ (lambdaHandler cfgZeroRetention envNoImages (ListingResult.ok [snapPlain]) 0).1.statusCode
        = 400
    ∧ (lambdaHandler cfgZeroRetention envNoImages (ListingResult.ok [snapPlain]) 0).2 = [] := by
  refine ⟨by decide, ?_, ?_⟩
  · exact (invalid_config_returns_400 cfgZeroRetention envNoImages (ListingResult.ok [snapPlain])
      0 (Or.inl (by decide))).1
  · exact (invalid_config_returns_400 cfgZeroRetention envNoImages (ListingResult.ok [snapPlain])
      0 (Or.inl (by decide))).2

/-- C8.  `lambda_handler` is a total function into structured
`LambdaResult` values (so no exception ever propagates), and the status is
exactly 200, 400, or 500: 400 when validation fails; 500 with an
`AWSAPIErrors` increment when the listing raises a `ClientError`; 500 with
an `UnexpectedErrors` increment when it raises anything else; and a
successful listing yields 200 for a positive batch size, while the
unvalidated `BATCH_SIZE = 0` makes the batching range raise `ValueError`,
caught by the validation-error arm as a 400 — still a structured result,
never a propagated exception. -/
theorem handler_total_structured_result (cfg : Config) (env : Env)
    (listing : ListingResult) (currentDate : Int) :
    ((lambdaHandler cfg env listing currentDate).1.statusCode = 200
     ∨ (lambdaHandler cfg env listing currentDate).1.statusCode = 400
     ∨ (lambdaHandler cfg env listing currentDate).1.statusCode = 500)
    ∧ (validationOk cfg = false →
        (lambdaHandler cfg env listing currentDate).1.statusCode = 400)
    ∧ (validationOk cfg = true → listing = ListingResult.clientError →
        (lambdaHandler cfg env listing currentDate).1.statusCode = 500
        ∧ ((lambdaHandler cfg env listing currentDate).2.any
            fun a => a.isMetric "AWSAPIErrors") = true)
    ∧ (validationOk cfg = true → listing = ListingResult.unexpectedError →
        (lambdaHandler cfg env listing currentDate).1.statusCode = 500
        ∧ ((lambdaHandler cfg env listing currentDate).2.any
            fun a => a.isMetric "UnexpectedErrors") = true)
    ∧ (validationOk cfg = true → cfg.batchSize = 0 →
        ∀ snapshots, listing = ListingResult.ok snapshots →
          (lambdaHandler cfg env listing currentDate).1.statusCode = 400)
    ∧ (validationOk cfg = true → 0 < cfg.batchSize →
        ∀ snapshots, listing = ListingResult.ok snapshots →
          (lambdaHandler cfg env listing currentDate).1.statusCode = 200) := by
  cases hv : validateEnvVars cfg with
  | error m =>
      have hok : validationOk cfg = false := by simp [validationOk, hv]
      simp [lambdaHandler, hv, hok]
  | ok u =>
      have hok : validationOk cfg = true := by simp [validationOk, hv]
      cases listing with
      | clientError => simp [lambdaHandler, hv, hok, Action.isMetric]
      | unexpectedError => simp [lambdaHandler, hv, hok, Action.isMetric]
      | ok snapshots =>
          by_cases hB : cfg.batchSize = 0
          · simp [lambdaHandler, hv, hok, hB]
          · simp [lambdaHandler, hv, hok, hB]

/-- C8, witness: the success path returns 200 at a positive batch size, a
listing `ClientError` returns 500 with an `AWSAPIErrors` increment, and a
zero batch size turns a successful listing into a 400, the caught range
`ValueError`. -/
theorem handler_total_structured_result_witness :
    (lambdaHandler cfgStd envNoImages (ListingResult.ok [snapPlain])
       (daysAfterEpoch 31)).1.statusCode = 200
    ∧ (lambdaHandler cfgStd envNoImages ListingResult.clientError 0).1.statusCode = 500
    ∧ ((lambdaHandler cfgStd envNoImages ListingResult.clientError 0).2.any
        fun a => a.isMetric "AWSAPIErrors") = true
    ∧ (lambdaHandler cfgZeroBatch envNoImages (ListingResult.ok [snapPlain])
        0).1.statusCode = 400 :=
  ⟨(handler_total_structured_result cfgStd envNoImages (ListingResult.ok [snapPlain])
      (daysAfterEpoch 31)).2.2.2.2.2 (by decide) (by decide) [snapPlain] rfl,
   ((handler_total_structured_result cfgStd envNoImages ListingResult.clientError 0).2.2.1
      (by decide) rfl).1,
   ((handler_total_structured_result cfgStd envNoImages ListingResult.clientError 0).2.2.1
      (by decide) rfl).2,
   (handler_total_structured_result cfgZeroBatch envNoImages (ListingResult.ok [snapPlain])
      0).2.2.2.2.1 (by decide) (by decide) [snapPlain] rfl⟩

/-- C9, counterexample.  A 40-day-old untagged snapshot under 30-day
retention, in an environment where the image lookup would raise a
`ClientError`: the claim predicts a `SnapshotProcessingErrors` increment
and outcome Errored, but the failing call is never made — the trace is
empty and the outcome is not Errored. -/
theorem lookup_error_not_counted_cex :
    envImagesFail.images "snap-001" = Except.error ()
    ∧ processSnapshot cfgStd envImagesFail (daysAfterEpoch 40) snapPlain
        = (Outcome.NoAction, []) :=
  ⟨rfl, by decide⟩

/-- C9, amended.  For a snapshot whose image lookup or deletion would
raise a `ClientError`, the failing call is never invoked: no image lookup
or delete call appears in the trace, `SnapshotProcessingErrors` is never
incremented, and the outcome is never Errored — the per-snapshot error
handler at lines 75 to 77 is unreachable.  (Processing of the other
snapshots continues regardless, as the batching loop processes each
snapshot independently.) -/
theorem lookup_error_branch_unreachable (cfg : Config) (env : Env) (currentDate : Int)
    (snap : Snapshot)
    (_herr : env.images snap.snapshotId = Except.error ()
             ∨ env.deleteSnap snap.snapshotId = Except.error ()) :
    ((processSnapshot cfg env currentDate snap).2.all
        fun a => !a.isMetric "SnapshotProcessingErrors") = true
    ∧ ((processSnapshot cfg env currentDate snap).2.all fun a => !a.isImageLookup) = true
    ∧ ((processSnapshot cfg env currentDate snap).2.all fun a => !a.isDeleteCall) = true
    ∧ (processSnapshot cfg env currentDate snap).1 ≠ Outcome.Errored := by
  rcases processSnapshot_cases cfg env currentDate snap with h | h | ⟨d, _, h⟩ | h <;>
    rw [h] <;>
    simp [Action.isMetric, Action.isImageLookup, Action.isDeleteCall]

/-- C9, witness for the amended claim at a concrete failing lookup. -/
theorem lookup_error_branch_unreachable_witness :
    envImagesFail.images "snap-001" = Except.error ()
    ∧ (((processSnapshot cfgStd envImagesFail (daysAfterEpoch 40) snapPlain).2.all
          fun a => !a.isMetric "SnapshotProcessingErrors") = true
       ∧ ((processSnapshot cfgStd envImagesFail (daysAfterEpoch 40) snapPlain).2.all
          fun a => !a.isImageLookup) = true
       ∧ ((processSnapshot cfgStd envImagesFail (daysAfterEpoch 40) snapPlain).2.all
          fun a => !a.isDeleteCall) = true
       ∧ (processSnapshot cfgStd envImagesFail (daysAfterEpoch 40) snapPlain).1
          ≠ Outcome.Errored) :=
  ⟨rfl,
   lookup_error_branch_unreachable cfgStd envImagesFail (daysAfterEpoch 40) snapPlain
     (Or.inl rfl)⟩

/-- C10.  For every batch size `B > 0`, batch processing equals sequential
processing: the trace of `process_snapshots_in_batches` is exactly the
concatenation of the per-snapshot traces in list order, the batches
concatenate back to the input list (every snapshot covered exactly once),
and a 250-snapshot list under batch size 100 splits into 3 batches of
sizes 100, 100, and 50. -/
theorem batching_refines_sequential (cfg : Config) (env : Env) (currentDate : Int)
    (snapshots : List Snapshot) (_hB : 0 < cfg.batchSize) :
    processSnapshotsInBatches cfg env currentDate snapshots
      = snapshots.flatMap (processTrace cfg env currentDate)
    ∧ (chunkList cfg.batchSize snapshots).flatten = snapshots
    ∧ (snapshots.length = 250 → cfg.batchSize = 100 →
        (chunkList cfg.batchSize snapshots).map List.length = [100, 100, 50]) := by
  refine ⟨?_, ?_, ?_⟩
  · exact chunkAux_flatMap cfg.batchSize (processTrace cfg env currentDate)
      snapshots.length snapshots le_rfl
  · exact chunkAux_flatten cfg.batchSize snapshots.length snapshots le_rfl
  · intro h250 h100
    rw [chunkList, chunkAux_lengths, h250, h100]
    decide

/-- C10, witness: 250 concrete snapshots under batch size 100. -/
theorem batching_refines_sequential_witness :
    snaps250.length = 250
    ∧ processSnapshotsInBatches cfgStd envNoImages 0 snaps250
        = snaps250.flatMap (processTrace cfgStd envNoImages 0)
    ∧ (chunkList cfgStd.batchSize snaps250).flatten = snaps250
    ∧ (chunkList cfgStd.batchSize snaps250).map List.length = [100, 100, 50] := by
  have hlen : snaps250.length = 250 := by
    simp [snaps250]
  have h := batching_refines_sequential cfgStd envNoImages 0 snaps250 (by decide)
  exact ⟨hlen, h.1, h.2.1, h.2.2 hlen rfl⟩

end SnapshotCleanup
